import Mathlib

/-!
Verification of the key-derivation and validation core of AstraGPT
(src/main.py): `KeyGenerator.generate_keys` and the key-classification
branch of `CLIInterface.prompt_for_key`.

The derivation pipeline hashes decimal strings of integer key material
with SHA-256.  The SHA-256 function is embedded below as an executable
Lean function over byte lists (`Nat` arithmetic modulo 2^32), faithful to
FIPS 180-4, so that concrete digests can be evaluated by the kernel.

The intermediate key-material values `key0_raw .. key3_raw` are computed
in the source with double-precision floating-point exponentiation and
Python's `round`; floating point does not translate to this shallow
embedding, so the derivation is modelled as a function of the date and of
the already-computed integer key material (`RawKeys`), which covers every
possible date.
-/

set_option maxRecDepth 100000

/-- Reduce a natural number modulo 2^32, the word size of SHA-256. -/
def w32 (n : Nat) : Nat := n % 4294967296

/-- Rotate a 32-bit word right by `n` bits. -/
def rotr (n x : Nat) : Nat := w32 ((x >>> n) ||| (x <<< (32 - n)))

/-- SHA-256 big sigma 0. -/
def bsig0 (x : Nat) : Nat := (rotr 2 x) ^^^ (rotr 13 x) ^^^ (rotr 22 x)

/-- SHA-256 big sigma 1. -/
def bsig1 (x : Nat) : Nat := (rotr 6 x) ^^^ (rotr 11 x) ^^^ (rotr 25 x)

/-- SHA-256 small sigma 0. -/
def ssig0 (x : Nat) : Nat := (rotr 7 x) ^^^ (rotr 18 x) ^^^ (x >>> 3)

/-- SHA-256 small sigma 1. -/
def ssig1 (x : Nat) : Nat := (rotr 17 x) ^^^ (rotr 19 x) ^^^ (x >>> 10)

/-- SHA-256 choice function; not-x is x xor 0xffffffff on 32-bit words. -/
def chf (x y z : Nat) : Nat := (x &&& y) ^^^ ((x ^^^ 4294967295) &&& z)

/-- SHA-256 majority function. -/
def maj (x y z : Nat) : Nat := (x &&& y) ^^^ (x &&& z) ^^^ (y &&& z)

/-- The 64 SHA-256 round constants of FIPS 180-4, written in decimal. -/
def kConst : List Nat :=
  [1116352408, 1899447441, 3049323471, 3921009573, 961987163,
   1508970993, 2453635748, 2870763221, 3624381080, 310598401,
   607225278, 1426881987, 1925078388, 2162078206, 2614888103,
   3248222580, 3835390401, 4022224774, 264347078, 604807628,
   770255983, 1249150122, 1555081692, 1996064986, 2554220882,
   2821834349, 2952996808, 3210313671, 3336571891, 3584528711,
   113926993, 338241895, 666307205, 773529912, 1294757372,
   1396182291, 1695183700, 1986661051, 2177026350, 2456956037,
   2730485921, 2820302411, 3259730800, 3345764771, 3516065817,
   3600352804, 4094571909, 275423344, 430227734, 506948616,
   659060556, 883997877, 958139571, 1322822218, 1537002063,
   1747873779, 1955562222, 2024104815, 2227730452, 2361852424,
   2428436474, 2756734187, 3204031479, 3329325298]

/-- The eight SHA-256 initial hash words of FIPS 180-4, written in decimal. -/
def shaH0 : List Nat :=
  [1779033703, 3144134277, 1013904242, 2773480762, 1359893119,
   2600822924, 528734635, 1541459225]

/-- Extend a reversed message schedule by `n` further words; the most recent
word W[t-1] sits at the head, so W[t-2], W[t-7], W[t-15], W[t-16] are at
indices 1, 6, 14, 15. -/
def extendW (ws : List Nat) : Nat → List Nat
  | 0 => ws
  | n + 1 =>
    extendW (w32 (ssig1 (ws.getD 1 0) + ws.getD 6 0 + ssig0 (ws.getD 14 0) + ws.getD 15 0) :: ws) n

/-- One SHA-256 compression round on the 8-word working state. -/
def shaStep (s : List Nat) (k wt : Nat) : List Nat :=
  match s with
  | [a, b, c, d, e, f, g, h] =>
    let t1 := w32 (h + bsig1 e + chf e f g + k + wt)
    let t2 := w32 (bsig0 a + maj a b c)
    [w32 (t1 + t2), a, b, c, w32 (d + t1), e, f, g]
  | s => s

/-- Compress one 16-word block into the running hash state. -/
def compress (hs : List Nat) (block : List Nat) : List Nat :=
  let w := (extendW block.reverse 48).reverse
  let final := (List.zip kConst w).foldl (fun s kw => shaStep s kw.1 kw.2) hs
  List.zipWith (fun a b => w32 (a + b)) hs final

/-- Fold the compression function over the padded message, 16 words at a time
(padded messages are always a multiple of 16 words). -/
def processBlocks (hs : List Nat) : List Nat → List Nat
  | w0 :: w1 :: w2 :: w3 :: w4 :: w5 :: w6 :: w7 ::
    w8 :: w9 :: w10 :: w11 :: w12 :: w13 :: w14 :: w15 :: rest =>
    processBlocks
      (compress hs [w0, w1, w2, w3, w4, w5, w6, w7, w8, w9, w10, w11, w12, w13, w14, w15]) rest
  | _ => hs

/-- SHA-256 padding: append 0x80, zero bytes, and the 64-bit big-endian bit length. -/
def padMessage (msg : List Nat) : List Nat :=
  let len := msg.length
  let zeros := (120 - (len + 1) % 64) % 64
  msg ++ [128] ++ List.replicate zeros 0 ++
    ([7, 6, 5, 4, 3, 2, 1, 0].map (fun i => ((len * 8) >>> (8 * i)) % 256))

/-- Assemble big-endian 32-bit words from bytes. -/
def bytesToWords : List Nat → List Nat
  | a :: b :: c :: d :: rest => (a * 16777216 + b * 65536 + c * 256 + d) :: bytesToWords rest
  | _ => []

/-- UTF-8 encoding of one character as a byte list. -/
def charUtf8 (c : Char) : List Nat :=
  let n := c.toNat
  if n < 128 then [n]
  else if n < 2048 then [192 + n / 64, 128 + n % 64]
  else if n < 65536 then [224 + n / 4096, 128 + (n / 64) % 64, 128 + n % 64]
  else [240 + n / 262144, 128 + (n / 4096) % 64, 128 + (n / 64) % 64, 128 + n % 64]

/-- UTF-8 bytes of a string, as Python's str.encode() produces. -/
def strBytes (s : String) : List Nat := (s.data.map charUtf8).flatten

/-- Lowercase hexadecimal digit for a value below 16. -/
def hexChar (n : Nat) : Char := if n < 10 then Char.ofNat (48 + n) else Char.ofNat (87 + n)

/-- Fixed-width lowercase hexadecimal digits of a number, most significant first. -/
def toHexDigits : Nat → Nat → List Char
  | 0, _ => []
  | w + 1, n => toHexDigits w (n / 16) ++ [hexChar (n % 16)]

/-- A 32-bit word as 8 lowercase hex characters. -/
def toHex8 (n : Nat) : String := String.mk (toHexDigits 8 n)

/-- Lowercase hex SHA-256 digest of the UTF-8 bytes of a string: the embedding of
Python's hashlib.sha256(s.encode()).hexdigest(). -/
def sha256hex (s : String) : String :=
  String.join ((processBlocks shaH0 (bytesToWords (padMessage (strBytes s)))).map toHex8)

example : sha256hex "" = "e3b0c44298fc1c149afbf4c8996fb92427ae41e4649b934ca495991b7852b855" := by decide

example : sha256hex "abc" = "ba7816bf8f01cfea414140de5dae2223b00361a396177a9cb410ff61f20015ad" := by decide

/-- The four intermediate integer key-material values `key0_raw .. key3_raw` of
`KeyGenerator.generate_keys` (src/main.py lines 42-49).  In the source they are
computed from the date with double-precision floating-point exponentiation and
Python's `round`; here they are taken as given integers, so theorems quantified
over `RawKeys` cover the values arising from every calendar date. -/
structure RawKeys where
  key0_raw : Int
  key1_raw : Int
  key2_raw : Int
  key3_raw : Int
deriving DecidableEq

/-- Result of `KeyGenerator.generate_keys`: the Python return type is
`Union[List[str], str]` — a list of digests in normal mode, a single digest in
shared mode. -/
inductive KeysResult where
  | normalKeys (keys : List String)
  | sharedKey (key : String)
deriving DecidableEq

/-- Embedding of `KeyGenerator.generate_keys` (src/main.py lines 30-65).  The
date (read in the source from `datetime.date.today()`) and the floating-point
derived key material are explicit parameters; everything else follows the
source line by line: the obfuscated seed and its (unused) hash, the four
SHA-256 digests of the decimal strings of the key material, and the mode
dispatch, with `raise ValueError("Unsupported key mode.")` embedded as
`Except.error`. -/
def generate_keys (year month day : Nat) (raws : RawKeys) (mode : String) :
    Except String KeysResult :=
  let raw_seed : Nat := (month ^ 2) * (year ^ day) * (2 ^ day)
  let _hashed_seed : String := sha256hex (toString raw_seed)
  let key0 : String := sha256hex (toString raws.key0_raw)
  let key1 : String := sha256hex (toString raws.key1_raw)
  let key2 : String := sha256hex (toString raws.key2_raw)
  let key3 : String := sha256hex (toString raws.key3_raw)
  let keys : List String := [key0, key1, key2, key3]
  if mode = "normal" then Except.ok (KeysResult.normalKeys keys)
  else if mode = "shared" then Except.ok (KeysResult.sharedKey (sha256hex (key0 ++ key1)))
  else Except.error "Unsupported key mode."

/-- Variant of `generate_keys` with the dead seed computation (src/main.py
lines 38-39: `raw_seed` and `_hashed_seed`) removed; used to show the seed
contributes nothing to any output. -/
def generate_keys_no_seed (_year _month _day : Nat) (raws : RawKeys) (mode : String) :
    Except String KeysResult :=
  let key0 : String := sha256hex (toString raws.key0_raw)
  let key1 : String := sha256hex (toString raws.key1_raw)
  let key2 : String := sha256hex (toString raws.key2_raw)
  let key3 : String := sha256hex (toString raws.key3_raw)
  let keys : List String := [key0, key1, key2, key3]
  if mode = "normal" then Except.ok (KeysResult.normalKeys keys)
  else if mode = "shared" then Except.ok (KeysResult.sharedKey (sha256hex (key0 ++ key1)))
  else Except.error "Unsupported key mode."

/-- The ordered DigestSet (spec section 3): the list returned by
`generate_keys` in normal mode. -/
def normalDigests (raws : RawKeys) : List String :=
  [sha256hex (toString raws.key0_raw), sha256hex (toString raws.key1_raw),
   sha256hex (toString raws.key2_raw), sha256hex (toString raws.key3_raw)]

/-- The SharedDigest (spec section 3): SHA-256 of the concatenation of the two
already-hex-encoded digests key0 and key1 (src/main.py line 62). -/
def sharedDigest (raws : RawKeys) : String :=
  sha256hex (sha256hex (toString raws.key0_raw) ++ sha256hex (toString raws.key1_raw))

/-- The AccessTier classification result (spec sections 3 and 4.2). -/
inductive AccessTier where
  | Standard
  | Elevated
  | Rejected
deriving DecidableEq

/-- Tier classification performed by the branch structure of
`CLIInterface.prompt_for_key` (src/main.py lines 140-146), in source order:
membership of the candidate in the normal key list (where the code returns
"gpt-3.5-turbo", the Standard tier), then equality with the shared key (where
the code returns "gpt-4o-mini", the Elevated tier), else rejection (where the
code prints an error and loops). -/
def validate (normal_keys : List String) (shared_key : String) (user_key : String) : AccessTier :=
  if user_key ∈ normal_keys then AccessTier.Standard
  else if user_key = shared_key then AccessTier.Elevated
  else AccessTier.Rejected

/-- Embedding of the `CLIInterface.prompt_for_key` loop (src/main.py lines
129-146) for a fixed date: the pending `input("Key: ")` answers are an explicit
list, consumed one per iteration; each iteration recomputes the normal and
shared keys via `generate_keys` exactly as the source does, returns the model
string on a match, and otherwise loops.  `none` means the input list was
exhausted without a match (the source would block waiting for more input); the
underscore match arm is unreachable since `generate_keys` always returns the
matched shapes for the modes "normal" and "shared". -/
def prompt_for_key (year month day : Nat) (raws : RawKeys) : List String → Option String
  | [] => none
  | user_key :: rest =>
    match generate_keys year month day raws "normal", generate_keys year month day raws "shared" with
    | Except.ok (KeysResult.normalKeys normal_keys), Except.ok (KeysResult.sharedKey shared_key) =>
      if user_key ∈ normal_keys then some "gpt-3.5-turbo"
      else if user_key = shared_key then some "gpt-4o-mini"
      else prompt_for_key year month day raws rest
    | _, _ => none

/-- Python's built-in `round` on an exact rational value: round half to even.
Stated on the numerator and denominator: `q.num.fdiv q.den` is the floor, and
twice the numerator of the fractional part is compared against the denominator
to detect below-half, above-half and the half-way tie (broken to even). -/
def pyRound (q : Rat) : Int :=
  if 2 * (q.num - q.num.fdiv q.den * q.den) < (q.den : Int) then q.num.fdiv q.den
  else if (q.den : Int) < 2 * (q.num - q.num.fdiv q.den * q.den) then q.num.fdiv q.den + 1
  else if q.num.fdiv q.den % 2 = 0 then q.num.fdiv q.den
  else q.num.fdiv q.den + 1

/-- The shape of `key0_raw` (src/main.py lines 42-44):
`2 * year + 7 * month ** e1 + day ** e2`, where `e1 = round(day / 2.5)` and
`e2 = round(day / 2) + round(day % 3 + 0.5 ** (day ** 0.6))` are the two
floating-point rounded exponents, taken as parameters (for every day in 1..31
both are non-negative, since the rounded quantities are non-negative). -/
def key0_raw (year month day : Nat) (e1 e2 : Nat) : Int :=
  2 * (year : Int) + 7 * (month : Int) ^ e1 + (day : Int) ^ e2

example : pyRound (mkRat 1 2) = 0 := by decide
example : pyRound (mkRat 3 2) = 2 := by decide
example : pyRound (mkRat 5 2) = 2 := by decide
example : pyRound (mkRat (-1) 2) = 0 := by decide
example : pyRound (mkRat (-3) 2) = -2 := by decide
example : pyRound (mkRat 2 5) = 0 := by decide
example : key0_raw 1 12 1 0 2 = 10 := by decide

/-- Normal mode of `generate_keys` returns exactly the ordered digest list. -/
theorem generate_keys_normal_eq (year month day : Nat) (raws : RawKeys) :
    generate_keys year month day raws "normal" =
      Except.ok (KeysResult.normalKeys (normalDigests raws)) := rfl

/-- Shared mode of `generate_keys` returns exactly the shared digest. -/
theorem generate_keys_shared_eq (year month day : Nat) (raws : RawKeys) :
    generate_keys year month day raws "shared" =
      Except.ok (KeysResult.sharedKey (sharedDigest raws)) := rfl

/-- C1: for every date (covered by quantifying over the key material computed
from it), shared mode returns the lowercase hex SHA-256 digest of the
concatenation of the two already-hex-encoded digests key0 and key1
(digest-of-digests); moreover, at concrete key material this differs from the
digest of the concatenated decimal strings of key0_raw and key1_raw. -/
theorem shared_mode_digest_of_digests :
    (∀ (year month day : Nat) (raws : RawKeys),
      generate_keys year month day raws "shared" =
        Except.ok (KeysResult.sharedKey
          (sha256hex (sha256hex (toString raws.key0_raw) ++ sha256hex (toString raws.key1_raw))))) ∧
    sharedDigest ⟨0, 1, 2, 3⟩ ≠ sha256hex (toString (0 : Int) ++ toString (1 : Int)) :=
  ⟨fun _ _ _ _ => rfl, by decide⟩

/-- C3: for every date (covered by quantifying over the key material computed
from it), normal mode returns exactly the ordered four-element list of the
lowercase hex SHA-256 digests of the canonical decimal strings of
key0_raw .. key3_raw (Lean's `toString` on `Int`, like Python's `str`, yields
the canonical base-10 form: no leading zeros, a leading minus sign exactly when
negative). -/
theorem normal_mode_digest_list (year month day : Nat) (raws : RawKeys) :
    generate_keys year month day raws "normal" =
      Except.ok (KeysResult.normalKeys
        [sha256hex (toString raws.key0_raw), sha256hex (toString raws.key1_raw),
         sha256hex (toString raws.key2_raw), sha256hex (toString raws.key3_raw)]) := rfl

/-- C8: the dead seed computation (`raw_seed = (month ** 2) * (year ** day) * (2 ** day)`
and its SHA-256 hash, src/main.py lines 38-39) contributes nothing to any
observable output: the variant of `generate_keys` with both lines removed
returns exactly the same result for every date, key material and mode. -/
theorem seed_hash_dead (year month day : Nat) (raws : RawKeys) (mode : String) :
    generate_keys year month day raws mode = generate_keys_no_seed year month day raws mode := rfl

/-- C6: determinism — `generate_keys` is a pure function of the date and key
material; two evaluations at the same inputs and mode yield identical results
(exact equality, in particular string equality of the digests). -/
theorem generate_keys_deterministic (year month day : Nat) (raws : RawKeys) (mode : String)
    (r1 r2 : Except String KeysResult)
    (h1 : generate_keys year month day raws mode = r1)
    (h2 : generate_keys year month day raws mode = r2) : r1 = r2 :=
  h1.symm.trans h2

/-- Witness for C6 at a concrete date, key material and mode. -/
theorem generate_keys_deterministic_witness :
    generate_keys 1 1 1 ⟨0, 1, 2, 3⟩ "normal" = generate_keys 1 1 1 ⟨0, 1, 2, 3⟩ "normal" :=
  generate_keys_deterministic 1 1 1 ⟨0, 1, 2, 3⟩ "normal" _ _ rfl rfl

/-- C7: any mode outside normal and shared makes `generate_keys` fail with the
unsupported-mode error and produce no digest output, while the two supported
modes never error. -/
theorem invalid_mode_error (year month day : Nat) (raws : RawKeys) (mode : String)
    (h1 : mode ≠ "normal") (h2 : mode ≠ "shared") :
    generate_keys year month day raws mode = Except.error "Unsupported key mode." ∧
    generate_keys year month day raws "normal" =
      Except.ok (KeysResult.normalKeys (normalDigests raws)) ∧
    generate_keys year month day raws "shared" =
      Except.ok (KeysResult.sharedKey (sharedDigest raws)) :=
  ⟨by simp [generate_keys, h1, h2], rfl, rfl⟩

/-- Witness for C7 at the concrete unsupported mode "invalid". -/
theorem invalid_mode_error_witness :
    generate_keys 1 1 1 ⟨0, 1, 2, 3⟩ "invalid" = Except.error "Unsupported key mode." ∧
    generate_keys 1 1 1 ⟨0, 1, 2, 3⟩ "normal" =
      Except.ok (KeysResult.normalKeys (normalDigests ⟨0, 1, 2, 3⟩)) ∧
    generate_keys 1 1 1 ⟨0, 1, 2, 3⟩ "shared" =
      Except.ok (KeysResult.sharedKey (sharedDigest ⟨0, 1, 2, 3⟩)) :=
  invalid_mode_error 1 1 1 ⟨0, 1, 2, 3⟩ "invalid" (by decide) (by decide)

/-- C4: validation is total (a total Lean function, embedding the fact that the
source branch raises nothing) and classifies in source order: membership in the
four normal digests wins (Standard) regardless of the shared comparison, then
equality with the shared digest (Elevated), and everything else — including the
empty string — is Rejected. -/
theorem validate_classification (normal_keys : List String) (shared_key : String)
    (cand : String) :
    (cand ∈ normal_keys → validate normal_keys shared_key cand = AccessTier.Standard) ∧
    (cand ∉ normal_keys → cand = shared_key →
      validate normal_keys shared_key cand = AccessTier.Elevated) ∧
    (cand ∉ normal_keys → cand ≠ shared_key →
      validate normal_keys shared_key cand = AccessTier.Rejected) := by
  refine ⟨fun h => ?_, fun hn he => ?_, fun hn he => ?_⟩
  · simp [validate, h]
  · rw [validate, if_neg hn, if_pos he]
  · rw [validate, if_neg hn, if_neg he]

/-- Witness for C4: all three classification outcomes at concrete inputs; the
candidate "k0" also equals no digest, and the empty string is Rejected. -/
theorem validate_classification_witness :
    validate ["k0", "k1"] "sh" "k0" = AccessTier.Standard ∧
    validate ["k0", "k1"] "sh" "sh" = AccessTier.Elevated ∧
    validate ["k0", "k1"] "sh" "" = AccessTier.Rejected :=
  ⟨(validate_classification ["k0", "k1"] "sh" "k0").1 (by decide),
   (validate_classification ["k0", "k1"] "sh" "sh").2.1 (by decide) rfl,
   (validate_classification ["k0", "k1"] "sh" "").2.2 (by decide) (by decide)⟩

theorem prompt_for_key_nil (year month day : Nat) (raws : RawKeys) :
    prompt_for_key year month day raws [] = none := rfl

theorem prompt_for_key_cons (year month day : Nat) (raws : RawKeys) (user_key : String)
    (rest : List String) :
    prompt_for_key year month day raws (user_key :: rest) =
      (if user_key ∈ normalDigests raws then some "gpt-3.5-turbo"
       else if user_key = sharedDigest raws then some "gpt-4o-mini"
       else prompt_for_key year month day raws rest) := rfl

/-- C10: whenever the `prompt_for_key` loop returns, the result is exactly
"gpt-3.5-turbo" — and some entered key was a member of the normal digest
list — or "gpt-4o-mini" — and some entered key missed the normal list but
equaled the shared digest; a non-matching key never makes the loop return. -/
theorem prompt_returns_model (year month day : Nat) (raws : RawKeys) (inputs : List String)
    (r : String) (h : prompt_for_key year month day raws inputs = some r) :
    (r = "gpt-3.5-turbo" ∧ ∃ k, k ∈ inputs ∧ k ∈ normalDigests raws) ∨
    (r = "gpt-4o-mini" ∧ ∃ k, k ∈ inputs ∧ k ∉ normalDigests raws ∧ k = sharedDigest raws) := by
  revert h
  induction inputs with
  | nil =>
    intro h
    rw [prompt_for_key_nil] at h
    exact absurd h (by simp)
  | cons k rest ih =>
    intro h
    rw [prompt_for_key_cons] at h
    by_cases h1 : k ∈ normalDigests raws
    · rw [if_pos h1] at h
      exact Or.inl ⟨(Option.some_inj.mp h).symm, k, List.mem_cons_self k rest, h1⟩
    · rw [if_neg h1] at h
      by_cases h2 : k = sharedDigest raws
      · rw [if_pos h2] at h
        exact Or.inr ⟨(Option.some_inj.mp h).symm, k, List.mem_cons_self k rest, h1, h2⟩
      · rw [if_neg h2] at h
        rcases ih h with ⟨hr, k2, hk1, hk2⟩ | ⟨hr, k2, hk1, hk2⟩
        · exact Or.inl ⟨hr, k2, List.mem_cons_of_mem k hk1, hk2⟩
        · exact Or.inr ⟨hr, k2, List.mem_cons_of_mem k hk1, hk2⟩

/-- Witness for C10: entering the first normal digest makes the loop return
"gpt-3.5-turbo"; the hypothesis is discharged by evaluating the SHA-256
pipeline in the kernel. -/
theorem prompt_returns_model_witness :
    ("gpt-3.5-turbo" = "gpt-3.5-turbo" ∧
      ∃ k, k ∈ [sha256hex (toString (0 : Int))] ∧ k ∈ normalDigests ⟨0, 1, 2, 3⟩) ∨
    ("gpt-3.5-turbo" = "gpt-4o-mini" ∧
      ∃ k, k ∈ [sha256hex (toString (0 : Int))] ∧ k ∉ normalDigests ⟨0, 1, 2, 3⟩ ∧
        k = sharedDigest ⟨0, 1, 2, 3⟩) :=
  prompt_returns_model 1 1 1 ⟨0, 1, 2, 3⟩ [sha256hex (toString (0 : Int))] "gpt-3.5-turbo"
    (by decide)

/-- C5: round-trip acceptance for any date and the key material computed from
it: derive in normal mode yields exactly the digest list and derive in shared
mode exactly the shared digest; validating any member of the digest list (in
particular each of its four elements) on the same date yields Standard, and
validating the shared digest yields Elevated, the latter under the hypothesis —
true of actual SHA-256 outputs and discharged by evaluation in the witness —
that the shared digest is not itself among the four normal digests. -/
theorem roundtrip_acceptance (year month day : Nat) (raws : RawKeys)
    (hfresh : sharedDigest raws ∉ normalDigests raws) :
    generate_keys year month day raws "normal" =
      Except.ok (KeysResult.normalKeys (normalDigests raws)) ∧
    generate_keys year month day raws "shared" =
      Except.ok (KeysResult.sharedKey (sharedDigest raws)) ∧
    (∀ k ∈ normalDigests raws,
      validate (normalDigests raws) (sharedDigest raws) k = AccessTier.Standard) ∧
    validate (normalDigests raws) (sharedDigest raws) (sharedDigest raws) =
      AccessTier.Elevated := by
  refine ⟨rfl, rfl, fun k hk => ?_, ?_⟩
  · simp [validate, hk]
  · simp [validate, hfresh]

/-- Witness for C5 at concrete key material: the non-collision hypothesis and
the membership of the first digest are both discharged by kernel evaluation of
the SHA-256 pipeline. -/
theorem roundtrip_acceptance_witness :
    sharedDigest ⟨0, 1, 2, 3⟩ ∉ normalDigests ⟨0, 1, 2, 3⟩ ∧
    validate (normalDigests ⟨0, 1, 2, 3⟩) (sharedDigest ⟨0, 1, 2, 3⟩)
      (sha256hex (toString (0 : Int))) = AccessTier.Standard ∧
    validate (normalDigests ⟨0, 1, 2, 3⟩) (sharedDigest ⟨0, 1, 2, 3⟩)
      (sharedDigest ⟨0, 1, 2, 3⟩) = AccessTier.Elevated :=
  ⟨by decide,
   (roundtrip_acceptance 1 1 1 ⟨0, 1, 2, 3⟩ (by decide)).2.2.1
     (sha256hex (toString (0 : Int))) (by decide),
   (roundtrip_acceptance 1 1 1 ⟨0, 1, 2, 3⟩ (by decide)).2.2.2⟩

theorem pyRound_nonneg (x : Rat) (hx : 0 ≤ x) : 0 ≤ pyRound x := by
  have hnum : 0 ≤ x.num := Rat.num_nonneg.mpr hx
  have hf : 0 ≤ x.num.fdiv (x.den : Int) := Int.fdiv_nonneg hnum (Int.natCast_nonneg x.den)
  unfold pyRound
  split_ifs <;> linarith [hf]

/-- C9 counterexample: the claimed inequality chain fails at the valid calendar
date year = 1, month = 12, day = 1.  There the two rounded exponents of
key0_raw are exact floating-point computations with no rounding slack:
`e1 = round(1 / 2.5) = round(0.4) = 0` and
`e2 = round(1 / 2) + round(1 % 3 + 0.5 ** (1 ** 0.6))
    = round(0.5) + round(1.5) = 0 + 2 = 2`
(1 ** 0.6 = 1.0 and 0.5 ** 1.0 = 0.5 are exact in IEEE double, and Python's
round breaks both half-way ties to even).  Hence key0_raw = 2 + 7 + 1 = 10,
the middle claimed inequality 2 * year + 7 > month - 1 reads 9 > 11 and is
false, and the base of the 0.8-power, key0_raw + 1 - month = -1, is not
positive (in the source this makes `(-1) ** 0.8` return a complex number and
the subsequent `round` raise a TypeError). -/
theorem key_pipeline_safety_counterexample :
    ¬ (2 * (1 : Int) + 7 ≤ key0_raw 1 12 1 0 2 ∧
       (12 : Int) - 1 < 2 * (1 : Int) + 7 ∧
       0 < key0_raw 1 12 1 0 2 + 1 - 12) := by decide

/-- C9 as amended: for every valid calendar date with year at least 3 (so that
in particular 2 * year + 7 exceeds month - 1 for every month up to 12), for all
non-negative integer exponents e1, e2 (the floating-point rounded exponents of
key0_raw are non-negative for every day in 1..31), and for every non-negative
rational x standing for the value (key0_raw + 1 - month) ** 0.8 whose rounding
produces key1_raw: key0_raw is at least 2 * year + 7, which exceeds month - 1;
the base of the 0.8-power is strictly positive; key1_raw = round(x) is
non-negative, so its 0.5-power is defined; and key0_raw is non-zero, so the
division key1_raw / key0_raw in key3_raw never divides by zero. -/
theorem key_pipeline_safety (year month day e1 e2 : Nat) (x : Rat)
    (hy : 3 ≤ year) (hm1 : 1 ≤ month) (hm2 : month ≤ 12)
    (hd1 : 1 ≤ day) (hd2 : day ≤ 31) (hx : 0 ≤ x) :
    2 * (year : Int) + 7 ≤ key0_raw year month day e1 e2 ∧
    (month : Int) - 1 < 2 * (year : Int) + 7 ∧
    0 < key0_raw year month day e1 e2 + 1 - (month : Int) ∧
    0 ≤ pyRound x ∧
    key0_raw year month day e1 e2 ≠ 0 := by
  have hme : (1 : Int) ≤ (month : Int) ^ e1 := by
    exact_mod_cast Nat.one_le_pow e1 month (by omega)
  have hde : (1 : Int) ≤ (day : Int) ^ e2 := by
    exact_mod_cast Nat.one_le_pow e2 day (by omega)
  have hy2 : (3 : Int) ≤ (year : Int) := by exact_mod_cast hy
  have hm3 : (month : Int) ≤ 12 := by exact_mod_cast hm2
  unfold key0_raw
  refine ⟨by linarith, by linarith, by linarith, pyRound_nonneg x hx, by intro hz; linarith⟩

/-- Witness for C9 at the concrete date 2024-03-15 with exponents e1 = 6,
e2 = 8 (the values the floating-point pipeline produces for day = 15) and
x = 0. -/
theorem key_pipeline_safety_witness :
    2 * (2024 : Int) + 7 ≤ key0_raw 2024 3 15 6 8 ∧
    (3 : Int) - 1 < 2 * (2024 : Int) + 7 ∧
    0 < key0_raw 2024 3 15 6 8 + 1 - (3 : Int) ∧
    0 ≤ pyRound 0 ∧
    key0_raw 2024 3 15 6 8 ≠ 0 :=
  key_pipeline_safety 2024 3 15 6 8 0 (by decide) (by decide) (by decide) (by decide)
    (by decide) (by decide)
